import Mathlib

/-!
# Verification of the payment-and-entitlement reconciliation layer

Shallow embedding of the webhook reconciliation subsystem of a
Next.js + Stripe + Supabase application: the pricing calculator, the
campaign date resolver, the entitlement store accessors, the
reconciliation handlers and the webhook dispatcher / HTTP route.

Modelling conventions:
* JS `Date` values are modelled by `DateTime`: a local calendar day index
  together with the wall-clock milliseconds within that day, ordered
  lexicographically (chronological order).  `setDate(getDate() + n)`
  (local calendar day increment, preserving wall-clock time of day, as the
  source uses) is `DateTime.addDays`.
* The database is modelled as a `Store` of in-memory rows; accessors are
  pure functions on it.  Database I/O errors are outside the model: the
  source's per-call error branches that merely log and report a failed
  write never fire here.
* JS string truthiness checks on metadata (`!x`) are modelled by `metaStr`:
  an absent or empty string field counts as missing.  Numeric metadata
  values (which the source transports as decimal strings and re-parses
  with `parseInt`/`parseFloat`) are modelled post-parse as `Option Int` /
  `Option Rat`.
* External Stripe API reads (`subscriptions.retrieve`, `invoices.retrieve`,
  signature verification, JSON parsing) are supplied by environments of
  explicit functions; a thrown exception is an `Except.error`.
-/

/-- A JS `Date`: local calendar day index plus milliseconds within the day,
ordered lexicographically. -/
structure DateTime where
  day : Int
  msOfDay : Int
deriving DecidableEq, Repr

/-- Strict chronological comparison of two `DateTime`s (JS `a < b` on dates). -/
def DateTime.ltb (a b : DateTime) : Bool :=
  decide (a.day < b.day ∨ (a.day = b.day ∧ a.msOfDay < b.msOfDay))

/-- Local calendar day increment preserving wall-clock time of day:
the model of `d.setDate(d.getDate() + n)`. -/
def DateTime.addDays (d : DateTime) (n : Int) : DateTime :=
  { d with day := d.day + n }

/-- Model of `new Date(sec * 1000)` for a Unix-seconds timestamp. -/
def DateTime.ofEpochSeconds (sec : Int) : DateTime :=
  ⟨(sec * 1000) / 86400000, (sec * 1000) % 86400000⟩

/-- JS `Math.round`: round half up (towards positive infinity). -/
def mathRound (x : Rat) : Int :=
  Int.floor (x + 1 / 2)

/-- JS string truthiness on an optional metadata string: `none` if the field
is absent or the empty string, else the value. -/
def metaStr (v : Option String) : Option String :=
  match v with
  | some s => if s = "" then none else some s
  | none => none

/-! ## Data model: rows of the entitlement store -/

/-- An ad campaign row (`ads` table), pay-per-day model
(`src/payments/types/advertising.ts`).  Row ids are modelled as the `Nat`
sequence in which rows were created; `created_at` ordering is represented
by list position (newest rows first). -/
structure Ad where
  id : Nat
  business_id : String
  status : String
  start_at : Option DateTime
  end_at : Option DateTime
  days_purchased : Option Int
  daily_rate_cents : Option Int
  total_amount_cents : Option Int
  discount_percent : Option Rat
  had_membership : Option Bool
  stripe_session_id : Option String
  stripe_payment_intent_id : Option String
  updated_at : Option DateTime := none
deriving DecidableEq, Repr

/-- A one-time membership purchase order (`membership_orders` table). -/
structure MembershipOrder where
  id : String
  profile_id : String
  membership_plan_id : String
  status : String
  amount_cents : Int
  currency : String
  stripe_session_id : Option String
  stripe_payment_intent_id : Option String
  paid_at : Option DateTime := none
deriving DecidableEq, Repr

/-- A membership plan catalog row (`membership_plans` table). -/
structure MembershipPlan where
  id : String
  name : String
  price_cents : Int
  currency : String
  interval : String
  is_active : Bool
deriving DecidableEq, Repr

/-- A user profile row (`profiles` table), with the membership fields
mutated by the membership handler and the subscription linkage field. -/
structure Profile where
  id : String
  email : String
  membership_plan_id : Option String
  membership_started_at : Option DateTime
  membership_expires_at : Option DateTime
  current_subscription_id : Option Nat := none
deriving DecidableEq, Repr

/-- A subscription row (`subscriptions` table). -/
structure Subscription where
  id : Nat
  profile_id : String
  subscription_plan_id : String
  stripe_subscription_id : String
  stripe_customer_id : String
  stripe_price_id : String
  status : String
  cancel_at_period_end : Bool
  current_period_start : DateTime
  current_period_end : DateTime
  canceled_at : Option DateTime := none
  ended_at : Option DateTime := none
deriving DecidableEq, Repr

/-- A subscription plan catalog row (`subscription_plans` table). -/
structure SubscriptionPlan where
  id : String
  name : String
  price_cents : Int
  currency : String
  billing_interval : String
  stripe_price_id : Option String
  is_active : Bool
deriving DecidableEq, Repr

/-- A recurring payment record (`subscription_payments` table). -/
structure SubscriptionPayment where
  subscription_id : Nat
  profile_id : String
  stripe_invoice_id : String
  stripe_payment_intent_id : Option String
  amount_cents : Int
  currency : String
  status : String
  billing_reason : Option String
  period_start : DateTime
  period_end : DateTime
  paid_at : Option DateTime := none
deriving DecidableEq, Repr

/-- The relational store the reconciliation handlers read and write. -/
structure Store where
  ads : List Ad := []
  nextAdId : Nat := 0
  orders : List MembershipOrder := []
  membershipPlans : List MembershipPlan := []
  profiles : List Profile := []
  subscriptions : List Subscription := []
  nextSubId : Nat := 0
  subscriptionPlans : List SubscriptionPlan := []
  subscriptionPayments : List SubscriptionPayment := []
deriving DecidableEq, Repr

def emptyStore : Store := {}

/-! ## Advertising service (`advertisingService.ts`, pay-per-day model) -/

/-- Whether an ad row counts as non-terminal for `getActiveAd`. -/
def Ad.isNonTerminal (a : Ad) : Bool :=
  a.status == "active" || a.status == "pending_payment"

/-- `getActiveAd`: the most recently created ad row of the business whose
status is `active` or `pending_payment` (rows are kept newest first). -/
def getActiveAd (s : Store) (businessId : String) : Option Ad :=
  s.ads.find? (fun a => a.business_id == businessId && a.isNonTerminal)

/-- `createAd`: insert a fresh ad row with status `active`. -/
def createAd (s : Store) (businessId : String) (days : Int)
    (dailyRateCents : Int) (totalAmountCents : Int) (discountPercent : Rat)
    (hadMembership : Bool) (startAt endAt : DateTime) (sessionId : String)
    (paymentIntentId : Option String) : Ad × Store :=
  let ad : Ad :=
    { id := s.nextAdId
      business_id := businessId
      status := "active"
      start_at := some startAt
      end_at := some endAt
      days_purchased := some days
      daily_rate_cents := some dailyRateCents
      total_amount_cents := some totalAmountCents
      discount_percent := some discountPercent
      had_membership := some hadMembership
      stripe_session_id := some sessionId
      stripe_payment_intent_id := paymentIntentId }
  (ad, { s with ads := ad :: s.ads, nextAdId := s.nextAdId + 1 })

/-- `extendAd`: re-read the row, add the purchased days and amount to the
cumulative totals, push `end_at` to the new end date and refresh the
processor ids.  The daily rate, discount and membership-flag arguments are
accepted but, as in the source, the original row values are kept. -/
def extendAd (s : Store) (adId : Nat) (additionalDays : Int)
    (dailyRateCents : Int) (additionalAmount : Int) (discountPercent : Rat)
    (hadMembership : Bool) (newEndAt : DateTime) (sessionId : String)
    (paymentIntentId : Option String) (now : DateTime) : Bool × Store :=
  match s.ads.find? (fun a => a.id == adId) with
  | none => (false, s)
  | some currentAd =>
    let newTotalDays := currentAd.days_purchased.getD 0 + additionalDays
    let newTotalAmount := currentAd.total_amount_cents.getD 0 + additionalAmount
    (true,
      { s with
          ads := s.ads.map (fun a =>
            if a.id == adId then
              { a with
                  end_at := some newEndAt
                  days_purchased := some newTotalDays
                  total_amount_cents := some newTotalAmount
                  stripe_session_id := some sessionId
                  stripe_payment_intent_id := paymentIntentId
                  updated_at := some now }
            else a) })

/-- `calculateAdDates`: if the business has an unexpired campaign, the new
run starts at its `end_at`; otherwise it starts now.  The end date is the
start advanced by the purchased number of local calendar days.  The
source reads `now` from the clock; it is an explicit argument here. -/
def calculateAdDates (days : Int) (existingAd : Option Ad) (now : DateTime) :
    DateTime × DateTime :=
  let startAt :=
    match existingAd with
    | some ad =>
      match ad.end_at with
      | some existingEndAt =>
        if DateTime.ltb now existingEndAt then existingEndAt else now
      | none => now
    | none => now
  (startAt, startAt.addDays days)

/-- The result record of `calculateAdPrice`. -/
structure AdPrice where
  subtotal : Int
  discountPercent : Rat
  discountAmount : Int
  total : Int
deriving DecidableEq, Repr

/-- `calculateAdPrice`: subtotal, 5% membership discount (rounded half-up
on the cent amount, JS `Math.round`), and total. -/
def calculateAdPrice (days : Int) (dailyRateCents : Int)
    (hasMembership : Bool) : AdPrice :=
  let subtotal := days * dailyRateCents
  let discountPercent : Rat := if hasMembership then 5 else 0
  let discountAmount := mathRound ((subtotal : Rat) * (discountPercent / 100))
  let total := subtotal - discountAmount
  { subtotal := subtotal
    discountPercent := discountPercent
    discountAmount := discountAmount
    total := total }

/-! ## Membership service (`membershipService.ts`, store accessors) -/

/-- `getMembershipPlan`: look up an active membership plan by id. -/
def getMembershipPlan (s : Store) (planId : String) : Option MembershipPlan :=
  s.membershipPlans.find? (fun p => p.id == planId && p.is_active)

/-- `getProfile`: look up a profile by user id. -/
def getProfile (s : Store) (userId : String) : Option Profile :=
  s.profiles.find? (fun p => p.id == userId)

/-- `getMembershipOrder`: look up a membership order by id. -/
def getMembershipOrder (s : Store) (orderId : String) : Option MembershipOrder :=
  s.orders.find? (fun o => o.id == orderId)

/-- `markOrderAsPaid`: set the order's status to `paid`, record the paid
time and the processor payment-intent id. -/
def markOrderAsPaid (s : Store) (orderId : String)
    (paymentIntentId : Option String) (now : DateTime) : Store :=
  { s with
      orders := s.orders.map (fun o =>
        if o.id == orderId then
          { o with
              status := "paid"
              paid_at := some now
              stripe_payment_intent_id := paymentIntentId }
        else o) }

/-- `calculateNewExpirationDate`: extend from the current expiration date
when the membership has not yet expired, else start from now, then add the
plan duration in local calendar days. -/
def calculateNewExpirationDate (currentExpiresAt : Option DateTime)
    (durationDays : Int) (now : DateTime) : DateTime :=
  let baseDate :=
    match currentExpiresAt with
    | some expiresDate =>
      if DateTime.ltb now expiresDate then expiresDate else now
    | none => now
  baseDate.addDays durationDays

/-- `updateProfileMembership`: write the new plan id, start the membership
now and set the new expiration date. -/
def updateProfileMembership (s : Store) (profileId : String) (planId : String)
    (expiresAt : DateTime) (now : DateTime) : Store :=
  { s with
      profiles := s.profiles.map (fun p =>
        if p.id == profileId then
          { p with
              membership_plan_id := some planId
              membership_started_at := some now
              membership_expires_at := some expiresAt }
        else p) }

/-! ## Subscription service (`subscriptionService.ts`) -/

/-- `getSubscriptionPlan`: look up an active subscription plan by id. -/
def getSubscriptionPlan (s : Store) (planId : String) : Option SubscriptionPlan :=
  s.subscriptionPlans.find? (fun p => p.id == planId && p.is_active)

/-- `getSubscriptionByStripeId`: look up a subscription row by the processor
subscription id (the idempotency key). -/
def getSubscriptionByStripeId (s : Store) (stripeSubscriptionId : String) :
    Option Subscription :=
  s.subscriptions.find? (fun r => r.stripe_subscription_id == stripeSubscriptionId)

/-- `createSubscription`: insert a new subscription row and point the
profile's `current_subscription_id` at it. -/
def createSubscription (s : Store) (profileId : String) (planId : String)
    (stripeSubscriptionId : String) (stripeCustomerId : String)
    (stripePriceId : String) (status : String)
    (currentPeriodStart currentPeriodEnd : DateTime) : Subscription × Store :=
  let row : Subscription :=
    { id := s.nextSubId
      profile_id := profileId
      subscription_plan_id := planId
      stripe_subscription_id := stripeSubscriptionId
      stripe_customer_id := stripeCustomerId
      stripe_price_id := stripePriceId
      status := status
      cancel_at_period_end := false
      current_period_start := currentPeriodStart
      current_period_end := currentPeriodEnd }
  (row,
    { s with
        subscriptions := row :: s.subscriptions
        nextSubId := s.nextSubId + 1
        profiles := s.profiles.map (fun p =>
          if p.id == profileId then { p with current_subscription_id := some row.id }
          else p) })

/-- The partial-update record accepted by `updateSubscription`.  A field
set to `none` is left unchanged; `canceled_at` and `ended_at` distinguish
an omitted field from an explicit null, as the source's
`!== undefined` checks do. -/
structure SubscriptionUpdates where
  status : Option String := none
  cancel_at_period_end : Option Bool := none
  current_period_start : Option DateTime := none
  current_period_end : Option DateTime := none
  canceled_at : Option (Option DateTime) := none
  ended_at : Option (Option DateTime) := none
deriving DecidableEq, Repr

/-- `updateSubscription`: apply a partial field update to a subscription row. -/
def updateSubscription (s : Store) (subscriptionId : Nat)
    (updates : SubscriptionUpdates) : Store :=
  { s with
      subscriptions := s.subscriptions.map (fun r =>
        if r.id == subscriptionId then
          { r with
              status := updates.status.getD r.status
              cancel_at_period_end := updates.cancel_at_period_end.getD r.cancel_at_period_end
              current_period_start := updates.current_period_start.getD r.current_period_start
              current_period_end := updates.current_period_end.getD r.current_period_end
              canceled_at := updates.canceled_at.getD r.canceled_at
              ended_at := updates.ended_at.getD r.ended_at }
        else r) }

/-- `createSubscriptionPayment`: insert a payment record; fails (without
inserting) when a record for the invoice already exists, modelling the
storage-level uniqueness error the source reports as `false`. -/
def createSubscriptionPayment (s : Store) (subscriptionId : Nat)
    (profileId : String) (stripeInvoiceId : String)
    (stripePaymentIntentId : Option String) (amountCents : Int)
    (currency : String) (billingReason : Option String)
    (periodStart periodEnd : DateTime) (status : String) (now : DateTime) :
    Bool × Store :=
  if s.subscriptionPayments.any (fun p => p.stripe_invoice_id == stripeInvoiceId) then
    (false, s)
  else
    (true,
      { s with
          subscriptionPayments :=
            { subscription_id := subscriptionId
              profile_id := profileId
              stripe_invoice_id := stripeInvoiceId
              stripe_payment_intent_id := stripePaymentIntentId
              amount_cents := amountCents
              currency := currency
              status := status
              billing_reason := billingReason
              period_start := periodStart
              period_end := periodEnd
              paid_at := if status == "paid" then some now else none } ::
              s.subscriptionPayments })

/-- `updateSubscriptionPaymentStatus`: update the status (and on `paid`
the paid time), optionally refreshing the payment-intent id. -/
def updateSubscriptionPaymentStatus (s : Store) (stripeInvoiceId : String)
    (status : String) (paymentIntentId : Option String) (now : DateTime) : Store :=
  { s with
      subscriptionPayments := s.subscriptionPayments.map (fun p =>
        if p.stripe_invoice_id == stripeInvoiceId then
          { p with
              status := status
              paid_at := if status == "paid" then some now else p.paid_at
              stripe_payment_intent_id :=
                match paymentIntentId with
                | some pi => some pi
                | none => p.stripe_payment_intent_id }
        else p) }

/-! ## Webhook event and session model -/

/-- The metadata bag of a checkout session.  String-valued keys are
`Option String`; the numeric keys (transported as decimal strings and
re-parsed by the handlers) are modelled post-parse. -/
structure SessionMetadata where
  productType : Option String := none
  membershipOrderId : Option String := none
  profileId : Option String := none
  membershipPlanId : Option String := none
  subscriptionPlanId : Option String := none
  businessId : Option String := none
  days : Option Int := none
  dailyRateCents : Option Int := none
  hasMembership : Option String := none
  discountPercent : Option Rat := none
  totalAmountCents : Option Int := none
  adPlanId : Option String := none
deriving DecidableEq, Repr

/-- A Stripe checkout session as seen by the webhook handlers. -/
structure CheckoutSession where
  id : String
  payment_intent : Option String := none
  payment_status : String
  mode : String
  subscription : Option String := none
  metadata : SessionMetadata := {}
deriving DecidableEq, Repr

/-- A Stripe subscription object returned by `subscriptions.retrieve`.
`priceId` stands for `items.data[0].price.id`; the period bounds are Unix
seconds. -/
structure StripeSubscription where
  id : String
  customer : String
  priceId : String
  status : String
  cancel_at_period_end : Bool := false
  current_period_start : Int
  current_period_end : Int
  canceled_at : Option Int := none
  latest_invoice : Option String := none
deriving DecidableEq, Repr

/-- A Stripe invoice object. -/
structure StripeInvoice where
  id : String
  subscription : Option String := none
  payment_intent : Option String := none
  amount_paid : Int
  currency : String
  billing_reason : Option String := none
  period_start : Int
  period_end : Int
  status : String
deriving DecidableEq, Repr

/-- The inbound webhook events the dispatchers switch over. -/
inductive StripeEvent where
  | checkoutSessionCompleted (session : CheckoutSession)
  | customerSubscriptionCreated (sub : StripeSubscription)
  | customerSubscriptionUpdated (sub : StripeSubscription)
  | customerSubscriptionDeleted (sub : StripeSubscription)
  | invoicePaymentSucceeded (invoice : StripeInvoice)
  | invoicePaymentFailed (invoice : StripeInvoice)
  | checkoutAsyncPaymentFailed (session : CheckoutSession)
  | checkoutSessionExpired (session : CheckoutSession)
  | paymentIntentSucceeded (paymentIntentId : String)
  | paymentIntentFailed (paymentIntentId : String)
  | other (eventType : String)
deriving DecidableEq, Repr

/-- The `event.type` string of an event. -/
def StripeEvent.typeName : StripeEvent → String
  | .checkoutSessionCompleted _ => "checkout.session.completed"
  | .customerSubscriptionCreated _ => "customer.subscription.created"
  | .customerSubscriptionUpdated _ => "customer.subscription.updated"
  | .customerSubscriptionDeleted _ => "customer.subscription.deleted"
  | .invoicePaymentSucceeded _ => "invoice.payment_succeeded"
  | .invoicePaymentFailed _ => "invoice.payment_failed"
  | .checkoutAsyncPaymentFailed _ => "checkout.session.async_payment_failed"
  | .checkoutSessionExpired _ => "checkout.session.expired"
  | .paymentIntentSucceeded _ => "payment_intent.succeeded"
  | .paymentIntentFailed _ => "payment_intent.payment_failed"
  | .other t => t

/-- The structured result every handler returns to the dispatcher. -/
structure WebhookHandlerResult where
  success : Bool
  message : String
  error : Option String := none
deriving DecidableEq, Repr

/-- The external Stripe API as seen by the subscription checkout handler;
`Except.error` models a thrown exception. -/
structure StripeEnv where
  stripeConfigured : Bool
  retrieveSubscription : String → Except String StripeSubscription
  retrieveInvoice : String → Except String StripeInvoice

/-! ## Webhook service, subscription variant

The module routing checkout completions to the subscription checkout
handler and the pay-per-day advertising handler, plus the subscription
lifecycle and invoice handlers (`membershipService.ts`, second document). -/

namespace WebhookA

/-- `handleSubscriptionCheckout`: idempotent creation of a subscription row
keyed by the processor subscription id. -/
def handleSubscriptionCheckout (env : StripeEnv) (now : DateTime)
    (session : CheckoutSession) (s : Store) : WebhookHandlerResult × Store :=
  match metaStr session.metadata.profileId,
        metaStr session.metadata.subscriptionPlanId with
  | some profileId, some subscriptionPlanId =>
    if env.stripeConfigured = false then
      ({ success := false, message := "Stripe not configured" }, s)
    else
      match metaStr session.subscription with
      | none => ({ success := false, message := "No subscription ID" }, s)
      | some stripeSubscriptionId =>
        match getSubscriptionByStripeId s stripeSubscriptionId with
        | some _ =>
          ({ success := true, message := "Subscription already processed" }, s)
        | none =>
          match env.retrieveSubscription stripeSubscriptionId with
          | .error e =>
            ({ success := false, message := "Error processing subscription checkout",
               error := some e }, s)
          | .ok stripeSubscription =>
            match getSubscriptionPlan s subscriptionPlanId with
            | none => ({ success := false, message := "Plan not found" }, s)
            | some plan =>
              let (subscription, s1) := createSubscription s profileId plan.id
                stripeSubscription.id stripeSubscription.customer
                stripeSubscription.priceId stripeSubscription.status
                (DateTime.ofEpochSeconds stripeSubscription.current_period_start)
                (DateTime.ofEpochSeconds stripeSubscription.current_period_end)
              match stripeSubscription.latest_invoice with
              | none =>
                ({ success := true, message := "Subscription created successfully" }, s1)
              | some invoiceId =>
                match env.retrieveInvoice invoiceId with
                | .error e =>
                  ({ success := false,
                     message := "Error processing subscription checkout",
                     error := some e }, s1)
                | .ok invoice =>
                  let (_, s2) := createSubscriptionPayment s1 subscription.id
                    profileId invoice.id invoice.payment_intent
                    invoice.amount_paid invoice.currency invoice.billing_reason
                    (DateTime.ofEpochSeconds invoice.period_start)
                    (DateTime.ofEpochSeconds invoice.period_end)
                    (if invoice.status == "paid" then "paid" else "pending") now
                  ({ success := true,
                     message := "Subscription created successfully" }, s2)
  | _, _ => ({ success := false, message := "Missing required metadata" }, s)

/-- `handleAdvertisingPurchase` (pay-per-day): validate the metadata, read
the business's active campaign, resolve the dates, then extend the
existing campaign or create a new one. -/
def handleAdvertisingPurchase (now : DateTime) (session : CheckoutSession)
    (s : Store) : WebhookHandlerResult × Store :=
  let m := session.metadata
  match metaStr m.businessId, m.days, m.dailyRateCents, m.totalAmountCents with
  | some businessId, some daysPurchased, some dailyRate, some totalAmount =>
    let discount := m.discountPercent.getD 0
    let hadMembership := m.hasMembership == some "true"
    let paymentIntentId := session.payment_intent
    let sessionId := session.id
    let activeAd := getActiveAd s businessId
    let (startAt, endAt) := calculateAdDates daysPurchased activeAd now
    match activeAd with
    | some ad =>
      let (extended, s1) := extendAd s ad.id daysPurchased dailyRate totalAmount
        discount hadMembership endAt sessionId paymentIntentId now
      if extended then
        ({ success := true,
           message := "Advertising campaign activated/extended successfully" }, s1)
      else
        ({ success := false, message := "Failed to extend campaign" }, s1)
    | none =>
      let (_, s1) := createAd s businessId daysPurchased dailyRate totalAmount
        discount hadMembership startAt endAt sessionId paymentIntentId
      ({ success := true,
         message := "Advertising campaign activated/extended successfully" }, s1)
  | _, _, _, _ => ({ success := false, message := "Missing required metadata" }, s)

/-- `handlePaymentCompleted`: route a paid checkout session by its
`productType` metadata discriminator. -/
def handlePaymentCompleted (env : StripeEnv) (now : DateTime)
    (session : CheckoutSession) (s : Store) : WebhookHandlerResult × Store :=
  match session.metadata.productType with
  | some "subscription" => handleSubscriptionCheckout env now session s
  | some "advertising" => handleAdvertisingPurchase now session s
  | _ => ({ success := true, message := "Payment completed successfully" }, s)

/-- `handleSubscriptionUpdated`: narrow idempotent field update from a
subscription lifecycle event. -/
def handleSubscriptionUpdated (sub : StripeSubscription) (s : Store) :
    WebhookHandlerResult × Store :=
  match getSubscriptionByStripeId s sub.id with
  | none => ({ success := false, message := "Subscription not found" }, s)
  | some dbSubscription =>
    let s1 := updateSubscription s dbSubscription.id
      { status := some sub.status
        cancel_at_period_end := some sub.cancel_at_period_end
        current_period_start := some (DateTime.ofEpochSeconds sub.current_period_start)
        current_period_end := some (DateTime.ofEpochSeconds sub.current_period_end)
        canceled_at := some (sub.canceled_at.map DateTime.ofEpochSeconds) }
    ({ success := true, message := "Subscription updated successfully" }, s1)

/-- `handleSubscriptionDeleted`: mark the row canceled; a missing row is a
soft success (already deleted). -/
def handleSubscriptionDeleted (now : DateTime) (sub : StripeSubscription)
    (s : Store) : WebhookHandlerResult × Store :=
  match getSubscriptionByStripeId s sub.id with
  | none =>
    ({ success := true, message := "Subscription not found (already deleted)" }, s)
  | some dbSubscription =>
    let s1 := updateSubscription s dbSubscription.id
      { status := some "canceled", ended_at := some (some now) }
    ({ success := true, message := "Subscription deleted successfully" }, s1)

/-- `handleInvoicePaymentSucceeded`: record the paid invoice against the
subscription.  (The source wraps the insert in a try/catch whose fallback
update is unreachable, because the insert reports failure instead of
throwing.) -/
def handleInvoicePaymentSucceeded (now : DateTime) (invoice : StripeInvoice)
    (s : Store) : WebhookHandlerResult × Store :=
  match invoice.subscription with
  | none => ({ success := true, message := "Non-subscription invoice" }, s)
  | some subscriptionId =>
    match getSubscriptionByStripeId s subscriptionId with
    | none => ({ success := false, message := "Subscription not found" }, s)
    | some dbSubscription =>
      let (_, s1) := createSubscriptionPayment s dbSubscription.id
        dbSubscription.profile_id invoice.id invoice.payment_intent
        invoice.amount_paid invoice.currency invoice.billing_reason
        (DateTime.ofEpochSeconds invoice.period_start)
        (DateTime.ofEpochSeconds invoice.period_end) "paid" now
      ({ success := true, message := "Invoice payment recorded successfully" }, s1)

/-- `handleInvoicePaymentFailed`: mark the subscription `past_due` (if not
already) and the payment record failed. -/
def handleInvoicePaymentFailed (now : DateTime) (invoice : StripeInvoice)
    (s : Store) : WebhookHandlerResult × Store :=
  match invoice.subscription with
  | none => ({ success := true, message := "Non-subscription invoice" }, s)
  | some subscriptionId =>
    match getSubscriptionByStripeId s subscriptionId with
    | none => ({ success := false, message := "Subscription not found" }, s)
    | some dbSubscription =>
      let s1 :=
        if dbSubscription.status == "past_due" then s
        else updateSubscription s dbSubscription.id { status := some "past_due" }
      let s2 := updateSubscriptionPaymentStatus s1 invoice.id "failed" none now
      ({ success := true, message := "Invoice payment failure recorded" }, s2)

/-- `handlePaymentFailed`: acknowledged without business logic. -/
def handlePaymentFailed (session : CheckoutSession) (s : Store) :
    WebhookHandlerResult × Store :=
  let _ := session.id
  ({ success := true, message := "Payment failure handled" }, s)

/-- `handleWebhookEvent`: the dispatcher of the subscription-variant
webhook service.  A checkout completion is processed when its payment
status is `paid` or its mode is `subscription`; otherwise it is
acknowledged as payment pending. -/
def handleWebhookEvent (env : StripeEnv) (now : DateTime) (event : StripeEvent)
    (s : Store) : WebhookHandlerResult × Store :=
  match event with
  | .checkoutSessionCompleted session =>
    if session.payment_status == "paid" || session.mode == "subscription" then
      handlePaymentCompleted env now session s
    else
      ({ success := true,
         message := "Checkout session completed but payment pending" }, s)
  | .customerSubscriptionCreated _ =>
    ({ success := true, message := "Subscription creation acknowledged" }, s)
  | .customerSubscriptionUpdated sub => handleSubscriptionUpdated sub s
  | .customerSubscriptionDeleted sub => handleSubscriptionDeleted now sub s
  | .invoicePaymentSucceeded invoice => handleInvoicePaymentSucceeded now invoice s
  | .invoicePaymentFailed invoice => handleInvoicePaymentFailed now invoice s
  | .checkoutAsyncPaymentFailed session => handlePaymentFailed session s
  | .checkoutSessionExpired session => handlePaymentFailed session s
  | .paymentIntentSucceeded _ =>
    ({ success := true, message := "PaymentIntent succeeded" }, s)
  | .paymentIntentFailed _ =>
    ({ success := true, message := "PaymentIntent failed" }, s)
  | .other t =>
    ({ success := true, message := "Unhandled event type: " ++ t }, s)

end WebhookA

/-! ## Webhook service, membership variant

The module routing checkout completions to the membership purchase handler
(`membershipService.ts`, third document).  Its advertising branch imports
an older ad-plan advertising service; that legacy handler involves
month/year calendar arithmetic outside this date model and is abstracted
as an explicit function parameter `legacyAdvertising`. -/

namespace WebhookB

/-- `handleMembershipPurchase`: idempotent membership activation keyed by
the order id embedded in the session metadata. -/
def handleMembershipPurchase (now : DateTime) (session : CheckoutSession)
    (s : Store) : WebhookHandlerResult × Store :=
  match metaStr session.metadata.membershipOrderId,
        metaStr session.metadata.profileId,
        metaStr session.metadata.membershipPlanId with
  | some membershipOrderId, some profileId, some membershipPlanId =>
    match getMembershipOrder s membershipOrderId with
    | none => ({ success := false, message := "Order not found" }, s)
    | some order =>
      if order.status == "paid" then
        ({ success := true, message := "Order already processed" }, s)
      else
        let paymentIntentId := session.payment_intent
        let s1 := markOrderAsPaid s order.id paymentIntentId now
        match getMembershipPlan s1 membershipPlanId, getProfile s1 profileId with
        | some plan, some profile =>
          let durationDays : Int := if plan.interval == "year" then 365 else 30
          let newExpiresAt :=
            calculateNewExpirationDate profile.membership_expires_at durationDays now
          let s2 := updateProfileMembership s1 profile.id plan.id newExpiresAt now
          ({ success := true, message := "Membership activated successfully" }, s2)
        | _, _ => ({ success := false, message := "Plan or profile not found" }, s1)
  | _, _, _ => ({ success := false, message := "Missing required metadata" }, s)

/-- `handlePaymentCompleted`: route a paid checkout session by its
`productType`; the advertising branch is the abstracted legacy handler. -/
def handlePaymentCompleted
    (legacyAdvertising : CheckoutSession → Store → WebhookHandlerResult × Store)
    (now : DateTime) (session : CheckoutSession) (s : Store) :
    WebhookHandlerResult × Store :=
  match session.metadata.productType with
  | some "membership" => handleMembershipPurchase now session s
  | some "advertising" => legacyAdvertising session s
  | _ => ({ success := true, message := "Payment completed successfully" }, s)

/-- `handlePaymentFailed`: acknowledged without business logic. -/
def handlePaymentFailed (session : CheckoutSession) (s : Store) :
    WebhookHandlerResult × Store :=
  let _ := session.id
  ({ success := true, message := "Payment failure handled" }, s)

/-- `handleWebhookEvent`: the dispatcher of the membership-variant webhook
service.  A checkout completion is processed only when its payment status
is `paid`; every event type outside its switch is acknowledged unhandled. -/
def handleWebhookEvent
    (legacyAdvertising : CheckoutSession → Store → WebhookHandlerResult × Store)
    (now : DateTime) (event : StripeEvent) (s : Store) :
    WebhookHandlerResult × Store :=
  match event with
  | .checkoutSessionCompleted session =>
    if session.payment_status == "paid" then
      handlePaymentCompleted legacyAdvertising now session s
    else
      ({ success := true,
         message := "Checkout session completed but payment pending" }, s)
  | .checkoutAsyncPaymentFailed session => handlePaymentFailed session s
  | .checkoutSessionExpired session => handlePaymentFailed session s
  | .paymentIntentSucceeded _ =>
    ({ success := true, message := "PaymentIntent succeeded" }, s)
  | .paymentIntentFailed _ =>
    ({ success := true, message := "PaymentIntent failed" }, s)
  | e => ({ success := true, message := "Unhandled event type: " ++ e.typeName }, s)

end WebhookB

/-! ## Webhook HTTP route (`app/api/payment/webhook/route.ts`) -/

/-- The verification environment of `constructWebhookEvent`: the configured
webhook secret (`none` when unset or empty, JS falsy), the Stripe SDK's
signature check (`verifyEvent payload signature secret`, `Except.error`
models a thrown verification failure) and plain JSON parsing. -/
structure VerifierEnv where
  stripeConfigured : Bool
  webhookSecret : Option String
  verifyEvent : String → String → String → Except String StripeEvent
  parseEvent : String → Except String StripeEvent

/-- `constructWebhookEvent`: verify the signature over the raw body and
construct the event.  When no webhook secret is configured, verification
is skipped and the payload is parsed directly. -/
def constructWebhookEvent (env : VerifierEnv) (payload : String)
    (signature : String) : Except String StripeEvent :=
  if env.stripeConfigured = false then .error "Stripe is not configured"
  else
    match env.webhookSecret with
    | none => env.parseEvent payload
    | some secret =>
      match env.verifyEvent payload signature secret with
      | .ok event => .ok event
      | .error _ => .error "Invalid webhook signature"

/-- An inbound webhook HTTP request: raw body plus the
`stripe-signature` header. -/
structure WebhookRequest where
  body : String
  signature : Option String
deriving DecidableEq, Repr

/-- The transport-level response of the webhook route. -/
structure HttpResponse where
  status : Nat
  success : Bool
  error : Option String := none
  eventType : Option String := none
deriving DecidableEq, Repr

/-- `POST /api/payment/webhook`: reject a missing signature header with
400, verify and construct the event (failure also 400, before any handler
runs), then dispatch; business-logic failures are still acknowledged with
200 so the processor does not retry.  The dispatcher is a parameter so the
route model covers both webhook service variants. -/
def webhookPOST (env : VerifierEnv)
    (dispatch : StripeEvent → Store → WebhookHandlerResult × Store)
    (request : WebhookRequest) (s : Store) : HttpResponse × Store :=
  match request.signature with
  | none =>
    ({ status := 400, success := false,
       error := some "Missing stripe-signature header" }, s)
  | some signature =>
    match constructWebhookEvent env request.body signature with
    | .error _ =>
      ({ status := 400, success := false, error := some "Invalid signature" }, s)
    | .ok event =>
      let (result, s1) := dispatch event s
      if result.success = false then
        ({ status := 200, success := false, error := result.error }, s1)
      else
        ({ status := 200, success := true,
           eventType := some event.typeName }, s1)

/-! ## Helper lemmas about the store accessors -/

theorem find?_map_of_pred {α : Type} (f : α → α) (p : α → Bool) (l : List α)
    (h : ∀ a, p (f a) = p a) : (l.map f).find? p = (l.find? p).map f := by
  induction l with
  | nil => rfl
  | cons a l ih =>
    simp only [List.map_cons, List.find?]
    rw [h a]
    cases hpa : p a <;> simp [ih]

theorem getProfile_markOrderAsPaid (s : Store) (orderId : String)
    (paymentIntentId : Option String) (now : DateTime) (userId : String) :
    getProfile (markOrderAsPaid s orderId paymentIntentId now) userId =
      getProfile s userId := rfl

theorem getMembershipPlan_markOrderAsPaid (s : Store) (orderId : String)
    (paymentIntentId : Option String) (now : DateTime) (planId : String) :
    getMembershipPlan (markOrderAsPaid s orderId paymentIntentId now) planId =
      getMembershipPlan s planId := rfl

theorem getMembershipOrder_updateProfileMembership (s : Store)
    (profileId planId : String) (expiresAt now : DateTime) (orderId : String) :
    getMembershipOrder (updateProfileMembership s profileId planId expiresAt now)
      orderId = getMembershipOrder s orderId := rfl

theorem getMembershipOrder_markOrderAsPaid_self (s : Store) (orderId : String)
    (paymentIntentId : Option String) (now : DateTime) (order : MembershipOrder)
    (h : getMembershipOrder s orderId = some order) :
    getMembershipOrder (markOrderAsPaid s orderId paymentIntentId now) orderId =
      some { order with
               status := "paid"
               paid_at := some now
               stripe_payment_intent_id := paymentIntentId } := by
  unfold getMembershipOrder at h
  have hid : order.id = orderId := by
    simpa using List.find?_some h
  unfold getMembershipOrder markOrderAsPaid
  rw [find?_map_of_pred]
  · rw [h]
    simp [hid]
  · intro a
    by_cases ha : (a.id == orderId) = true
    · simp [ha]
    · simp [ha]

theorem getProfile_updateProfileMembership_self (s : Store)
    (userId planId : String) (expiresAt now : DateTime) (profile : Profile)
    (h : getProfile s userId = some profile) :
    getProfile (updateProfileMembership s userId planId expiresAt now) userId =
      some { profile with
               membership_plan_id := some planId
               membership_started_at := some now
               membership_expires_at := some expiresAt } := by
  unfold getProfile at h
  have hid : profile.id = userId := by
    simpa using List.find?_some h
  unfold getProfile updateProfileMembership
  rw [find?_map_of_pred]
  · rw [h]
    simp [hid]
  · intro a
    by_cases ha : (a.id == userId) = true
    · simp [ha]
    · simp [ha]

/-! ## C5: pricing calculator -/

/-- C5: `calculateAdPrice(days, dailyRateCents, hasMembership)` returns
`subtotal = days * dailyRateCents`, a discount percent of 5 exactly for
members, a discount amount of `round(subtotal * discountPercent / 100)`
under half-up rounding, and `total = subtotal - discountAmount`; in
particular `calculateAdPrice(7, 500, true) = {3500, 5.0, 175, 3325}`,
`calculateAdPrice(10, 500, true).total = 4750` and
`calculateAdPrice(1, 500, false).total = 500`. -/
theorem calculateAdPrice_spec (days dailyRateCents : Int) (hasMembership : Bool)
    (hd : 1 ≤ days) (hr : 1 ≤ dailyRateCents) :
    (calculateAdPrice days dailyRateCents hasMembership).subtotal =
        days * dailyRateCents ∧
    (calculateAdPrice days dailyRateCents hasMembership).discountPercent =
        (if hasMembership then (5 : Rat) else 0) ∧
    (calculateAdPrice days dailyRateCents hasMembership).discountAmount =
        mathRound (((days * dailyRateCents : Int) : Rat) *
          ((if hasMembership then (5 : Rat) else 0) / 100)) ∧
    (calculateAdPrice days dailyRateCents hasMembership).total =
        days * dailyRateCents -
          mathRound (((days * dailyRateCents : Int) : Rat) *
            ((if hasMembership then (5 : Rat) else 0) / 100)) ∧
    calculateAdPrice 7 500 true =
        { subtotal := 3500, discountPercent := 5, discountAmount := 175,
          total := 3325 } ∧
    (calculateAdPrice 10 500 true).total = 4750 ∧
    (calculateAdPrice 1 500 false).total = 500 := by
  refine ⟨rfl, rfl, rfl, rfl, ?_, ?_, ?_⟩ <;>
    norm_num [calculateAdPrice, mathRound, AdPrice.mk.injEq]

/-- Witness for C5 at `days = 7`, `dailyRateCents = 500`, membership. -/
theorem calculateAdPrice_spec_witness :
    (calculateAdPrice 7 500 true).subtotal = 7 * 500 :=
  (calculateAdPrice_spec 7 500 true (by decide) (by decide)).1

/-! ## C2: campaign date resolver -/

/-- C2: `calculateAdDates` starts the run at the existing campaign's
`end_at` exactly when that campaign exists and its `end_at` is strictly
later than now (extension without gap or overlap), and at `now` otherwise
(campaign absent, `end_at` missing, or `end_at` not after now); in every
case the end date is the start advanced by exactly `days` local calendar
days. -/
theorem calculateAdDates_spec (days : Int) (ad : Ad) (e now : DateTime)
    (hd : 1 ≤ days) :
    (ad.end_at = some e → DateTime.ltb now e = true →
      calculateAdDates days (some ad) now = (e, e.addDays days)) ∧
    (ad.end_at = some e → DateTime.ltb now e = false →
      calculateAdDates days (some ad) now = (now, now.addDays days)) ∧
    (ad.end_at = none →
      calculateAdDates days (some ad) now = (now, now.addDays days)) ∧
    calculateAdDates days none now = (now, now.addDays days) := by
  refine ⟨?_, ?_, ?_, rfl⟩
  · intro h1 h2
    simp [calculateAdDates, h1, h2]
  · intro h1 h2
    simp [calculateAdDates, h1, h2]
  · intro h1
    simp [calculateAdDates, h1]

theorem getMembershipOrder_id (s : Store) (orderId : String)
    (order : MembershipOrder) (h : getMembershipOrder s orderId = some order) :
    order.id = orderId := by
  unfold getMembershipOrder at h
  simpa using List.find?_some h

theorem getProfile_id (s : Store) (userId : String) (profile : Profile)
    (h : getProfile s userId = some profile) : profile.id = userId := by
  unfold getProfile at h
  simpa using List.find?_some h

/-! ## Concrete fixtures used by the witnesses -/

def sampleAd : Ad :=
  { id := 0
    business_id := "biz-1"
    status := "active"
    start_at := some ⟨0, 0⟩
    end_at := some ⟨10, 0⟩
    days_purchased := some 10
    daily_rate_cents := some 500
    total_amount_cents := some 5000
    discount_percent := some 0
    had_membership := some false
    stripe_session_id := some "cs_1"
    stripe_payment_intent_id := some "pi_1" }

def samplePlan : MembershipPlan :=
  { id := "plan-1", name := "Gold", price_cents := 9900, currency := "usd",
    interval := "year", is_active := true }

def sampleProfile : Profile :=
  { id := "user-1", email := "u1@example.com", membership_plan_id := none,
    membership_started_at := none, membership_expires_at := some ⟨100, 0⟩ }

def samplePaidOrder : MembershipOrder :=
  { id := "order-1", profile_id := "user-1", membership_plan_id := "plan-1",
    status := "paid", amount_cents := 9900, currency := "usd",
    stripe_session_id := some "cs_m", stripe_payment_intent_id := some "pi_m" }

def samplePendingOrder : MembershipOrder :=
  { id := "order-2", profile_id := "user-1", membership_plan_id := "plan-1",
    status := "pending", amount_cents := 9900, currency := "usd",
    stripe_session_id := some "cs_m2", stripe_payment_intent_id := none }

def membershipMeta (orderId : String) : SessionMetadata :=
  { productType := some "membership", membershipOrderId := some orderId,
    profileId := some "user-1", membershipPlanId := some "plan-1" }

def samplePaidStore : Store :=
  { orders := [samplePaidOrder], membershipPlans := [samplePlan],
    profiles := [sampleProfile] }

def samplePendingStore : Store :=
  { orders := [samplePendingOrder], membershipPlans := [samplePlan],
    profiles := [sampleProfile] }

def sampleMembershipSession : CheckoutSession :=
  { id := "cs_m", payment_intent := some "pi_new", payment_status := "paid",
    mode := "payment", metadata := membershipMeta "order-1" }

def samplePendingOrderSession : CheckoutSession :=
  { id := "cs_m2", payment_intent := some "pi_new2", payment_status := "paid",
    mode := "payment", metadata := membershipMeta "order-2" }

/-- Witness for C2: a campaign ending on day 10, extended by 5 days on
day 3, runs from day 10 to day 15. -/
theorem calculateAdDates_spec_witness :
    calculateAdDates 5 (some sampleAd) ⟨3, 0⟩ =
      (⟨10, 0⟩, DateTime.addDays ⟨10, 0⟩ 5) :=
  (calculateAdDates_spec 5 sampleAd ⟨10, 0⟩ ⟨3, 0⟩ (by decide)).1 rfl (by decide)

/-! ## C3: membership idempotency -/

/-- C3: a membership checkout completion whose referenced order is already
`paid` returns success with the already-processed message and performs no
writes: the returned store is the input store, so the order row and the
profile's membership fields are all unchanged, and replaying a completed
checkout event yields exactly one membership-expiration update. -/
theorem handleMembershipPurchase_idempotent
    (now : DateTime) (session : CheckoutSession) (s : Store)
    (orderId profileId planId : String) (order : MembershipOrder)
    (h1 : metaStr session.metadata.membershipOrderId = some orderId)
    (h2 : metaStr session.metadata.profileId = some profileId)
    (h3 : metaStr session.metadata.membershipPlanId = some planId)
    (h4 : getMembershipOrder s orderId = some order)
    (h5 : order.status = "paid") :
    WebhookB.handleMembershipPurchase now session s =
      ({ success := true, message := "Order already processed", error := none },
       s) := by
  simp [WebhookB.handleMembershipPurchase, h1, h2, h3, h4, h5]

/-- Witness for C3 on a concrete already-paid order. -/
theorem handleMembershipPurchase_idempotent_witness :
    WebhookB.handleMembershipPurchase ⟨50, 0⟩ sampleMembershipSession
        samplePaidStore =
      ({ success := true, message := "Order already processed", error := none },
       samplePaidStore) :=
  handleMembershipPurchase_idempotent ⟨50, 0⟩ sampleMembershipSession
    samplePaidStore "order-1" "user-1" "plan-1" samplePaidOrder
    rfl rfl rfl (by decide) rfl

/-! ## C6: membership purchase applied to an unpaid order -/

/-- C6: on a not-yet-paid order the handler marks the order paid and writes
the profile a new expiration equal to `calculateNewExpirationDate` of the
current expiry with the plan duration (365 calendar days for a yearly
billing interval, 30 otherwise); `calculateNewExpirationDate` advances the
current expiry exactly when it is strictly in the future and now
otherwise, i.e. it advances `max(now, membership_expires_at)`. -/
theorem handleMembershipPurchase_updates
    (now : DateTime) (session : CheckoutSession) (s : Store)
    (orderId profileId planId : String) (order : MembershipOrder)
    (plan : MembershipPlan) (profile : Profile)
    (h1 : metaStr session.metadata.membershipOrderId = some orderId)
    (h2 : metaStr session.metadata.profileId = some profileId)
    (h3 : metaStr session.metadata.membershipPlanId = some planId)
    (h4 : getMembershipOrder s orderId = some order)
    (h5 : order.status ≠ "paid")
    (h6 : getMembershipPlan s planId = some plan)
    (h7 : getProfile s profileId = some profile) :
    ((WebhookB.handleMembershipPurchase now session s).1 =
      { success := true, message := "Membership activated successfully",
        error := none }) ∧
    (getMembershipOrder (WebhookB.handleMembershipPurchase now session s).2
        orderId =
      some { order with
               status := "paid"
               paid_at := some now
               stripe_payment_intent_id := session.payment_intent }) ∧
    (getProfile (WebhookB.handleMembershipPurchase now session s).2 profileId =
      some { profile with
               membership_plan_id := some plan.id
               membership_started_at := some now
               membership_expires_at := some (calculateNewExpirationDate
                 profile.membership_expires_at
                 (if plan.interval == "year" then 365 else 30) now) }) ∧
    (∀ cur d nw,
      (∀ e, cur = some e → DateTime.ltb nw e = true →
        calculateNewExpirationDate cur d nw = e.addDays d) ∧
      (∀ e, cur = some e → DateTime.ltb nw e = false →
        calculateNewExpirationDate cur d nw = nw.addDays d) ∧
      (cur = none → calculateNewExpirationDate cur d nw = nw.addDays d)) := by
  have hoid : order.id = orderId := getMembershipOrder_id s orderId order h4
  have hpid : profile.id = profileId := getProfile_id s profileId profile h7
  have hstatus : (order.status == "paid") = false := by
    simpa using h5
  have hstep : WebhookB.handleMembershipPurchase now session s =
      ({ success := true, message := "Membership activated successfully",
         error := none },
       updateProfileMembership
         (markOrderAsPaid s order.id session.payment_intent now)
         profile.id plan.id
         (calculateNewExpirationDate profile.membership_expires_at
           (if plan.interval == "year" then 365 else 30) now) now) := by
    simp only [WebhookB.handleMembershipPurchase, h1, h2, h3, h4, hstatus,
      Bool.false_eq_true, if_false, getMembershipPlan_markOrderAsPaid, h6,
      getProfile_markOrderAsPaid, h7]
  refine ⟨?_, ?_, ?_, ?_⟩
  · rw [hstep]
  · have h9 := getMembershipOrder_markOrderAsPaid_self s orderId
      session.payment_intent now order h4
    rw [hstep]
    simp only [getMembershipOrder_updateProfileMembership, hoid] at h9 ⊢
    exact h9
  · have h7b : getProfile (markOrderAsPaid s order.id session.payment_intent now)
        profileId = some profile := h7
    have h10 := getProfile_updateProfileMembership_self
      (markOrderAsPaid s order.id session.payment_intent now) profileId plan.id
      (calculateNewExpirationDate profile.membership_expires_at
        (if plan.interval == "year" then 365 else 30) now) now profile h7b
    rw [hstep]
    simp only [hpid] at h10 ⊢
    exact h10
  · intro cur d nw
    refine ⟨?_, ?_, ?_⟩
    · intro e he hlt
      simp [calculateNewExpirationDate, he, hlt]
    · intro e he hlt
      simp [calculateNewExpirationDate, he, hlt]
    · intro he
      simp [calculateNewExpirationDate, he]

/-- Witness for C6: paying a pending yearly order on day 50 with current
expiry day 100 extends the expiry to day 465. -/
theorem handleMembershipPurchase_updates_witness :
    getProfile (WebhookB.handleMembershipPurchase ⟨50, 0⟩
        samplePendingOrderSession samplePendingStore).2 "user-1" =
      some { sampleProfile with
               membership_plan_id := some "plan-1"
               membership_started_at := some ⟨50, 0⟩
               membership_expires_at := some (calculateNewExpirationDate
                 (some ⟨100, 0⟩) 365 ⟨50, 0⟩) } :=
  (handleMembershipPurchase_updates ⟨50, 0⟩ samplePendingOrderSession
    samplePendingStore "order-2" "user-1" "plan-1" samplePendingOrder
    samplePlan sampleProfile rfl rfl rfl (by decide) (by decide) (by decide)
    (by decide)).2.2.1

/-! ## C9: membership handler failure modes -/

/-- C9: missing metadata fails with the missing-metadata message and no
mutation; a missing order fails with the not-found message and no
mutation; a missing plan or profile fails with the corresponding message
leaving only the preceding order-paid mark (profiles untouched); and the
profile table is never mutated unless the referenced order has been marked
paid in the resulting state. -/
theorem handleMembershipPurchase_failure_modes :
    (∀ (now : DateTime) (session : CheckoutSession) (s : Store),
      (metaStr session.metadata.membershipOrderId = none ∨
       metaStr session.metadata.profileId = none ∨
       metaStr session.metadata.membershipPlanId = none) →
      WebhookB.handleMembershipPurchase now session s =
        ({ success := false, message := "Missing required metadata",
           error := none }, s)) ∧
    (∀ (now : DateTime) (session : CheckoutSession) (s : Store)
        (orderId profileId planId : String),
      metaStr session.metadata.membershipOrderId = some orderId →
      metaStr session.metadata.profileId = some profileId →
      metaStr session.metadata.membershipPlanId = some planId →
      getMembershipOrder s orderId = none →
      WebhookB.handleMembershipPurchase now session s =
        ({ success := false, message := "Order not found", error := none }, s)) ∧
    (∀ (now : DateTime) (session : CheckoutSession) (s : Store)
        (orderId profileId planId : String) (order : MembershipOrder),
      metaStr session.metadata.membershipOrderId = some orderId →
      metaStr session.metadata.profileId = some profileId →
      metaStr session.metadata.membershipPlanId = some planId →
      getMembershipOrder s orderId = some order →
      order.status ≠ "paid" →
      (getMembershipPlan s planId = none ∨ getProfile s profileId = none) →
      WebhookB.handleMembershipPurchase now session s =
        ({ success := false, message := "Plan or profile not found",
           error := none },
         markOrderAsPaid s order.id session.payment_intent now) ∧
      (markOrderAsPaid s order.id session.payment_intent now).profiles =
        s.profiles) ∧
    (∀ (now : DateTime) (session : CheckoutSession) (s : Store),
      ((WebhookB.handleMembershipPurchase now session s).2).profiles ≠
        s.profiles →
      ∃ (orderId : String) (o2 : MembershipOrder),
        metaStr session.metadata.membershipOrderId = some orderId ∧
        getMembershipOrder (WebhookB.handleMembershipPurchase now session s).2
          orderId = some o2 ∧
        o2.status = "paid") := by
  refine ⟨?_, ?_, ?_, ?_⟩
  · intro now session s h
    cases hA : metaStr session.metadata.membershipOrderId with
    | none => simp [WebhookB.handleMembershipPurchase, hA]
    | some a =>
      cases hB : metaStr session.metadata.profileId with
      | none => simp [WebhookB.handleMembershipPurchase, hA, hB]
      | some b =>
        cases hC : metaStr session.metadata.membershipPlanId with
        | none => simp [WebhookB.handleMembershipPurchase, hA, hB, hC]
        | some c => rcases h with h | h | h <;> simp_all
  · intro now session s orderId profileId planId h1 h2 h3 h4
    simp [WebhookB.handleMembershipPurchase, h1, h2, h3, h4]
  · intro now session s orderId profileId planId order h1 h2 h3 h4 h5 h6
    have hstatus : (order.status == "paid") = false := by simpa using h5
    refine ⟨?_, rfl⟩
    rcases h6 with hplan | hprof
    · simp [WebhookB.handleMembershipPurchase, h1, h2, h3, h4, hstatus,
        getMembershipPlan_markOrderAsPaid, hplan]
    · cases hplan2 : getMembershipPlan s planId with
      | none =>
        simp [WebhookB.handleMembershipPurchase, h1, h2, h3, h4, hstatus,
          getMembershipPlan_markOrderAsPaid, hplan2]
      | some p =>
        simp [WebhookB.handleMembershipPurchase, h1, h2, h3, h4, hstatus,
          getMembershipPlan_markOrderAsPaid, hplan2,
          getProfile_markOrderAsPaid, hprof]
  · intro now session s hne
    cases hA : metaStr session.metadata.membershipOrderId with
    | none => exact absurd (by simp [WebhookB.handleMembershipPurchase, hA]) hne
    | some a =>
    cases hB : metaStr session.metadata.profileId with
    | none => exact absurd (by simp [WebhookB.handleMembershipPurchase, hA, hB]) hne
    | some b =>
    cases hC : metaStr session.metadata.membershipPlanId with
    | none =>
      exact absurd (by simp [WebhookB.handleMembershipPurchase, hA, hB, hC]) hne
    | some c =>
    cases hO : getMembershipOrder s a with
    | none =>
      exact absurd (by simp [WebhookB.handleMembershipPurchase, hA, hB, hC, hO])
        hne
    | some o =>
    cases hSt : (o.status == "paid") with
    | true =>
      exact absurd (by simp [WebhookB.handleMembershipPurchase, hA, hB, hC, hO,
        hSt]) hne
    | false =>
    cases hP : getMembershipPlan s c with
    | none =>
      have hstep2 : WebhookB.handleMembershipPurchase now session s =
          ({ success := false, message := "Plan or profile not found",
             error := none },
           markOrderAsPaid s o.id session.payment_intent now) := by
        simp only [WebhookB.handleMembershipPurchase, hA, hB, hC, hO, hSt,
          Bool.false_eq_true, if_false, getMembershipPlan_markOrderAsPaid, hP]
      exact absurd (by rw [hstep2]; rfl) hne
    | some plan =>
    cases hQ : getProfile s b with
    | none =>
      have hstep2 : WebhookB.handleMembershipPurchase now session s =
          ({ success := false, message := "Plan or profile not found",
             error := none },
           markOrderAsPaid s o.id session.payment_intent now) := by
        simp only [WebhookB.handleMembershipPurchase, hA, hB, hC, hO, hSt,
          Bool.false_eq_true, if_false, getMembershipPlan_markOrderAsPaid, hP,
          getProfile_markOrderAsPaid, hQ]
      exact absurd (by rw [hstep2]; rfl) hne
    | some profile =>
      have hoid : o.id = a := getMembershipOrder_id s a o hO
      have hstep : WebhookB.handleMembershipPurchase now session s =
          ({ success := true, message := "Membership activated successfully",
             error := none },
           updateProfileMembership
             (markOrderAsPaid s o.id session.payment_intent now)
             profile.id plan.id
             (calculateNewExpirationDate profile.membership_expires_at
               (if plan.interval == "year" then 365 else 30) now) now) := by
        simp only [WebhookB.handleMembershipPurchase, hA, hB, hC, hO, hSt,
          Bool.false_eq_true, if_false, getMembershipPlan_markOrderAsPaid, hP,
          getProfile_markOrderAsPaid, hQ]
      have h9 := getMembershipOrder_markOrderAsPaid_self s a
        session.payment_intent now o hO
      have hfind : getMembershipOrder
          (WebhookB.handleMembershipPurchase now session s).2 a =
          some { o with
                   status := "paid"
                   paid_at := some now
                   stripe_payment_intent_id := session.payment_intent } := by
        rw [hstep]
        simp only [getMembershipOrder_updateProfileMembership, hoid] at h9 ⊢
        exact h9
      exact ⟨a, _, rfl, hfind, rfl⟩

def metaOnlySession : CheckoutSession :=
  { id := "cs_x", payment_status := "paid", mode := "payment",
    metadata := { productType := some "membership" } }

def orderOnlyStore : Store := { orders := [samplePendingOrder] }

/-- Witness for C9: each failure mode exercised on concrete inputs, and a
concrete run showing a profile mutation is preceded by the order-paid mark. -/
theorem handleMembershipPurchase_failure_modes_witness :
    (WebhookB.handleMembershipPurchase ⟨0, 0⟩ metaOnlySession emptyStore =
      ({ success := false, message := "Missing required metadata",
         error := none }, emptyStore)) ∧
    (WebhookB.handleMembershipPurchase ⟨0, 0⟩ sampleMembershipSession
        emptyStore =
      ({ success := false, message := "Order not found", error := none },
       emptyStore)) ∧
    (WebhookB.handleMembershipPurchase ⟨0, 0⟩ samplePendingOrderSession
        orderOnlyStore =
      ({ success := false, message := "Plan or profile not found",
         error := none },
       markOrderAsPaid orderOnlyStore samplePendingOrder.id
         samplePendingOrderSession.payment_intent ⟨0, 0⟩) ∧
     (markOrderAsPaid orderOnlyStore samplePendingOrder.id
         samplePendingOrderSession.payment_intent ⟨0, 0⟩).profiles =
       orderOnlyStore.profiles) ∧
    (∃ (orderId : String) (o2 : MembershipOrder),
      metaStr samplePendingOrderSession.metadata.membershipOrderId =
        some orderId ∧
      getMembershipOrder (WebhookB.handleMembershipPurchase ⟨50, 0⟩
        samplePendingOrderSession samplePendingStore).2 orderId = some o2 ∧
      o2.status = "paid") :=
  ⟨handleMembershipPurchase_failure_modes.1 ⟨0, 0⟩ metaOnlySession emptyStore
     (Or.inl rfl),
   handleMembershipPurchase_failure_modes.2.1 ⟨0, 0⟩ sampleMembershipSession
     emptyStore "order-1" "user-1" "plan-1" rfl rfl rfl rfl,
   handleMembershipPurchase_failure_modes.2.2.1 ⟨0, 0⟩
     samplePendingOrderSession orderOnlyStore "order-2" "user-1" "plan-1"
     samplePendingOrder rfl rfl rfl (by decide) (by decide) (Or.inl rfl),
   handleMembershipPurchase_failure_modes.2.2.2 ⟨50, 0⟩
     samplePendingOrderSession samplePendingStore (by decide)⟩

/-! ## C7: subscription checkout idempotency and key uniqueness -/

/-- At most one subscription row per processor subscription id. -/
def subscriptionKeyUnique (s : Store) : Prop :=
  s.subscriptions.Pairwise
    (fun a b => a.stripe_subscription_id ≠ b.stripe_subscription_id)

theorem createSubscription_subscriptions (s : Store) (profileId planId sid
    cust price st : String) (cps cpe : DateTime) :
    ((createSubscription s profileId planId sid cust price st cps cpe).2).subscriptions =
      (createSubscription s profileId planId sid cust price st cps cpe).1 ::
        s.subscriptions := rfl

theorem createSubscriptionPayment_subscriptions (s : Store)
    (subscriptionId : Nat) (profileId invId : String) (pi : Option String)
    (amount : Int) (currency : String) (reason : Option String)
    (ps pe : DateTime) (status : String) (now : DateTime) :
    ((createSubscriptionPayment s subscriptionId profileId invId pi amount
        currency reason ps pe status now).2).subscriptions =
      s.subscriptions := by
  unfold createSubscriptionPayment
  split <;> rfl

theorem getSubscriptionByStripeId_none (s : Store) (sid : String)
    (h : getSubscriptionByStripeId s sid = none) :
    ∀ r ∈ s.subscriptions, r.stripe_subscription_id ≠ sid := by
  unfold getSubscriptionByStripeId at h
  intro r hr
  have := List.find?_eq_none.mp h r hr
  simpa using this

/-- C7: when a subscription row already references the event's processor
subscription id, the checkout handler returns success without any
mutation; and the handler preserves the invariant of at most one
subscription row per processor subscription id (assuming, as the Stripe
API guarantees, that retrieving a subscription returns an object carrying
the requested id), so replaying the same subscription-checkout event
leaves exactly one row for that id. -/
theorem handleSubscriptionCheckout_idempotent :
    (∀ (env : StripeEnv) (now : DateTime) (session : CheckoutSession)
        (s : Store) (profileId planId sid : String) (row : Subscription),
      metaStr session.metadata.profileId = some profileId →
      metaStr session.metadata.subscriptionPlanId = some planId →
      env.stripeConfigured = true →
      metaStr session.subscription = some sid →
      getSubscriptionByStripeId s sid = some row →
      WebhookA.handleSubscriptionCheckout env now session s =
        ({ success := true, message := "Subscription already processed",
           error := none }, s)) ∧
    (∀ (env : StripeEnv) (now : DateTime) (session : CheckoutSession)
        (s : Store),
      (∀ sid ssub, env.retrieveSubscription sid = .ok ssub → ssub.id = sid) →
      subscriptionKeyUnique s →
      subscriptionKeyUnique
        (WebhookA.handleSubscriptionCheckout env now session s).2) := by
  constructor
  · intro env now session s profileId planId sid row h1 h2 h3 h4 h5
    simp [WebhookA.handleSubscriptionCheckout, h1, h2, h3, h4, h5]
  · intro env now session s hret hs
    cases hA : metaStr session.metadata.profileId with
    | none =>
      have he : (WebhookA.handleSubscriptionCheckout env now session s).2 = s := by
        simp [WebhookA.handleSubscriptionCheckout, hA]
      rw [he]; exact hs
    | some profileId =>
    cases hB : metaStr session.metadata.subscriptionPlanId with
    | none =>
      have he : (WebhookA.handleSubscriptionCheckout env now session s).2 = s := by
        simp [WebhookA.handleSubscriptionCheckout, hA, hB]
      rw [he]; exact hs
    | some planId =>
    cases hCfg : env.stripeConfigured with
    | false =>
      have he : (WebhookA.handleSubscriptionCheckout env now session s).2 = s := by
        simp [WebhookA.handleSubscriptionCheckout, hA, hB, hCfg]
      rw [he]; exact hs
    | true =>
    cases hC : metaStr session.subscription with
    | none =>
      have he : (WebhookA.handleSubscriptionCheckout env now session s).2 = s := by
        simp [WebhookA.handleSubscriptionCheckout, hA, hB, hCfg, hC]
      rw [he]; exact hs
    | some sid =>
    cases hD : getSubscriptionByStripeId s sid with
    | some row =>
      have he : (WebhookA.handleSubscriptionCheckout env now session s).2 = s := by
        simp [WebhookA.handleSubscriptionCheckout, hA, hB, hCfg, hC, hD]
      rw [he]; exact hs
    | none =>
    cases hE : env.retrieveSubscription sid with
    | error e =>
      have he : (WebhookA.handleSubscriptionCheckout env now session s).2 = s := by
        simp [WebhookA.handleSubscriptionCheckout, hA, hB, hCfg, hC, hD, hE]
      rw [he]; exact hs
    | ok ssub =>
    cases hF : getSubscriptionPlan s planId with
    | none =>
      have he : (WebhookA.handleSubscriptionCheckout env now session s).2 = s := by
        simp [WebhookA.handleSubscriptionCheckout, hA, hB, hCfg, hC, hD, hE, hF]
      rw [he]; exact hs
    | some plan =>
      have hid : ssub.id = sid := hret sid ssub hE
      have hfresh : ∀ r ∈ s.subscriptions, r.stripe_subscription_id ≠ sid :=
        getSubscriptionByStripeId_none s sid hD
      have hcons : ∀ (rest : Store),
          rest.subscriptions =
            (createSubscription s profileId plan.id ssub.id ssub.customer
              ssub.priceId ssub.status
              (DateTime.ofEpochSeconds ssub.current_period_start)
              (DateTime.ofEpochSeconds ssub.current_period_end)).1 ::
              s.subscriptions →
          subscriptionKeyUnique rest := by
        intro rest hrest
        unfold subscriptionKeyUnique
        rw [hrest]
        refine List.pairwise_cons.mpr ⟨?_, hs⟩
        intro b hb
        have : (createSubscription s profileId plan.id ssub.id ssub.customer
            ssub.priceId ssub.status
            (DateTime.ofEpochSeconds ssub.current_period_start)
            (DateTime.ofEpochSeconds ssub.current_period_end)).1.stripe_subscription_id =
            ssub.id := rfl
        rw [this, hid]
        exact fun hc => hfresh b hb hc.symm
      cases hG : ssub.latest_invoice with
      | none =>
        apply hcons
        simp [WebhookA.handleSubscriptionCheckout, hA, hB, hCfg, hC, hD,
          hE, hF, hG, createSubscription_subscriptions]
      | some invId =>
        cases hH : env.retrieveInvoice invId with
        | error e =>
          apply hcons
          simp [WebhookA.handleSubscriptionCheckout, hA, hB, hCfg, hC,
            hD, hE, hF, hG, hH, createSubscription_subscriptions]
        | ok invoice =>
          apply hcons
          simp [WebhookA.handleSubscriptionCheckout, hA, hB, hCfg, hC,
            hD, hE, hF, hG, hH, createSubscriptionPayment_subscriptions,
            createSubscription_subscriptions]

def sampleSubPlan : SubscriptionPlan :=
  { id := "splan-1", name := "Premium", price_cents := 500, currency := "usd",
    billing_interval := "month", stripe_price_id := some "price_1",
    is_active := true }

def sampleSubRow : Subscription :=
  { id := 0, profile_id := "user-1", subscription_plan_id := "splan-1",
    stripe_subscription_id := "sub_1", stripe_customer_id := "cus_1",
    stripe_price_id := "price_1", status := "active",
    cancel_at_period_end := false, current_period_start := ⟨0, 0⟩,
    current_period_end := ⟨30, 0⟩ }

def sampleSubStore : Store :=
  { profiles := [sampleProfile], subscriptions := [sampleSubRow],
    nextSubId := 1, subscriptionPlans := [sampleSubPlan] }

def sampleSubSession : CheckoutSession :=
  { id := "cs_s", payment_status := "paid", mode := "subscription",
    subscription := some "sub_1",
    metadata := { productType := some "subscription",
                  profileId := some "user-1",
                  subscriptionPlanId := some "splan-1" } }

def sampleStripeEnv : StripeEnv :=
  { stripeConfigured := true
    retrieveSubscription := fun sid =>
      .ok { id := sid, customer := "cus_1", priceId := "price_1",
            status := "active", current_period_start := 0,
            current_period_end := 2592000 }
    retrieveInvoice := fun _ => .error "invoice unavailable" }

/-- Witness for C7: a replayed checkout for the already-recorded
`sub_1` is a no-op, and the uniqueness invariant holds afterwards. -/
theorem handleSubscriptionCheckout_idempotent_witness :
    (WebhookA.handleSubscriptionCheckout sampleStripeEnv ⟨0, 0⟩
        sampleSubSession sampleSubStore =
      ({ success := true, message := "Subscription already processed",
         error := none }, sampleSubStore)) ∧
    subscriptionKeyUnique
      (WebhookA.handleSubscriptionCheckout sampleStripeEnv ⟨0, 0⟩
        sampleSubSession sampleSubStore).2 :=
  ⟨handleSubscriptionCheckout_idempotent.1 sampleStripeEnv ⟨0, 0⟩
     sampleSubSession sampleSubStore "user-1" "splan-1" "sub_1" sampleSubRow
     rfl rfl rfl rfl (by decide),
   handleSubscriptionCheckout_idempotent.2 sampleStripeEnv ⟨0, 0⟩
     sampleSubSession sampleSubStore
     (by intro sid ssub h; cases h; rfl)
     (by simp [subscriptionKeyUnique, sampleSubStore])⟩

/-! ## C1: at most one non-terminal campaign per business -/

/-- No two ad rows of the store are simultaneously non-terminal for the
same business. -/
def adCampaignSingular (s : Store) : Prop :=
  s.ads.Pairwise (fun a b =>
    ¬(a.isNonTerminal = true ∧ b.isNonTerminal = true ∧
      a.business_id = b.business_id))

theorem pairwise_nonterminal_map (l : List Ad) (f : Ad → Ad)
    (hf : ∀ a, (f a).status = a.status ∧ (f a).business_id = a.business_id)
    (h : l.Pairwise (fun a b =>
      ¬(a.isNonTerminal = true ∧ b.isNonTerminal = true ∧
        a.business_id = b.business_id))) :
    (l.map f).Pairwise (fun a b =>
      ¬(a.isNonTerminal = true ∧ b.isNonTerminal = true ∧
        a.business_id = b.business_id)) := by
  refine List.Pairwise.map f ?_ h
  intro a b hr hc
  apply hr
  obtain ⟨c1, c2, c3⟩ := hc
  refine ⟨?_, ?_, ?_⟩
  · unfold Ad.isNonTerminal at c1 ⊢
    rw [(hf a).1] at c1
    exact c1
  · unfold Ad.isNonTerminal at c2 ⊢
    rw [(hf b).1] at c2
    exact c2
  · rw [(hf a).2, (hf b).2] at c3
    exact c3

theorem extendAd_preserves (s : Store) (adId : Nat) (d rate amt : Int)
    (disc : Rat) (hm : Bool) (newEnd : DateTime) (sid : String)
    (pi : Option String) (now : DateTime) (h : adCampaignSingular s) :
    adCampaignSingular (extendAd s adId d rate amt disc hm newEnd sid pi now).2 := by
  unfold adCampaignSingular extendAd
  cases hCur : s.ads.find? (fun a => a.id == adId) with
  | none => exact h
  | some cur =>
    refine pairwise_nonterminal_map s.ads _ ?_ h
    intro a
    by_cases ha : (a.id == adId) = true <;> simp [ha]

theorem extendAd_ads_length (s : Store) (adId : Nat) (d rate amt : Int)
    (disc : Rat) (hm : Bool) (newEnd : DateTime) (sid : String)
    (pi : Option String) (now : DateTime) :
    ((extendAd s adId d rate amt disc hm newEnd sid pi now).2).ads.length =
      s.ads.length := by
  unfold extendAd
  cases hCur : s.ads.find? (fun a => a.id == adId) with
  | none => rfl
  | some cur => simp

theorem getActiveAd_none (s : Store) (businessId : String)
    (h : getActiveAd s businessId = none) :
    ∀ a ∈ s.ads, ¬(a.business_id = businessId ∧ a.isNonTerminal = true) := by
  unfold getActiveAd at h
  intro a ha hc
  have hfind := List.find?_eq_none.mp h a ha
  simp [hc.1, hc.2] at hfind

theorem handleAdvertisingPurchase_preserves (now : DateTime)
    (session : CheckoutSession) (s : Store) (h : adCampaignSingular s) :
    adCampaignSingular (WebhookA.handleAdvertisingPurchase now session s).2 := by
  cases hA : metaStr session.metadata.businessId with
  | none =>
    have he : (WebhookA.handleAdvertisingPurchase now session s).2 = s := by
      simp [WebhookA.handleAdvertisingPurchase, hA]
    rw [he]; exact h
  | some bid =>
  cases hB : session.metadata.days with
  | none =>
    have he : (WebhookA.handleAdvertisingPurchase now session s).2 = s := by
      simp [WebhookA.handleAdvertisingPurchase, hA, hB]
    rw [he]; exact h
  | some d =>
  cases hC : session.metadata.dailyRateCents with
  | none =>
    have he : (WebhookA.handleAdvertisingPurchase now session s).2 = s := by
      simp [WebhookA.handleAdvertisingPurchase, hA, hB, hC]
    rw [he]; exact h
  | some rate =>
  cases hD : session.metadata.totalAmountCents with
  | none =>
    have he : (WebhookA.handleAdvertisingPurchase now session s).2 = s := by
      simp [WebhookA.handleAdvertisingPurchase, hA, hB, hC, hD]
    rw [he]; exact h
  | some total =>
  cases hAct : getActiveAd s bid with
  | some ad =>
    have hpres := extendAd_preserves s ad.id d rate total
      (session.metadata.discountPercent.getD 0)
      (session.metadata.hasMembership == some "true")
      (calculateAdDates d (some ad) now).2 session.id session.payment_intent
      now h
    have he : (WebhookA.handleAdvertisingPurchase now session s).2 =
        (extendAd s ad.id d rate total
          (session.metadata.discountPercent.getD 0)
          (session.metadata.hasMembership == some "true")
          (calculateAdDates d (some ad) now).2 session.id
          session.payment_intent now).2 := by
      simp only [WebhookA.handleAdvertisingPurchase, hA, hB, hC, hD, hAct]
      cases hEx : extendAd s ad.id d rate total
        (session.metadata.discountPercent.getD 0)
        (session.metadata.hasMembership == some "true")
        (calculateAdDates d (some ad) now).2 session.id
        session.payment_intent now with
      | mk extended s1 => cases extended <;> simp [hEx]
    rw [he]
    exact hpres
  | none =>
    have he : (WebhookA.handleAdvertisingPurchase now session s).2 =
        (createAd s bid d rate total
          (session.metadata.discountPercent.getD 0)
          (session.metadata.hasMembership == some "true")
          (calculateAdDates d none now).1 (calculateAdDates d none now).2
          session.id session.payment_intent).2 := by
      simp only [WebhookA.handleAdvertisingPurchase, hA, hB, hC, hD, hAct]
    rw [he]
    unfold adCampaignSingular createAd
    refine List.pairwise_cons.mpr ⟨?_, h⟩
    intro b hb hc
    obtain ⟨c1, c2, c3⟩ := hc
    exact getActiveAd_none s bid hAct b hb ⟨c3.symm, c2⟩

/-- Sequential processing of completed advertising purchase events by the
pay-per-day advertising reconciliation handler, starting from an empty
store. -/
def processAdEvents (es : List (DateTime × CheckoutSession)) : Store :=
  es.foldl (fun st e => (WebhookA.handleAdvertisingPurchase e.1 e.2 st).2)
    emptyStore

/-- C1: after any sequence of completed advertising purchase events, at
most one ad row per business is non-terminal (`active` or
`pending_payment`); when `getActiveAd` finds a non-terminal campaign the
handler extends that row (no row added), and it creates a new `active` row
only when no such campaign exists. -/
theorem advertising_campaign_singularity :
    (∀ es : List (DateTime × CheckoutSession),
      adCampaignSingular (processAdEvents es)) ∧
    (∀ (now : DateTime) (session : CheckoutSession) (s : Store)
        (bid : String) (d rate total : Int) (ad : Ad),
      metaStr session.metadata.businessId = some bid →
      session.metadata.days = some d →
      session.metadata.dailyRateCents = some rate →
      session.metadata.totalAmountCents = some total →
      getActiveAd s bid = some ad →
      ((WebhookA.handleAdvertisingPurchase now session s).2).ads.length =
        s.ads.length) ∧
    (∀ (now : DateTime) (session : CheckoutSession) (s : Store)
        (bid : String) (d rate total : Int),
      metaStr session.metadata.businessId = some bid →
      session.metadata.days = some d →
      session.metadata.dailyRateCents = some rate →
      session.metadata.totalAmountCents = some total →
      getActiveAd s bid = none →
      ∃ newAd : Ad,
        ((WebhookA.handleAdvertisingPurchase now session s).2).ads =
          newAd :: s.ads ∧
        newAd.business_id = bid ∧ newAd.status = "active") := by
  refine ⟨?_, ?_, ?_⟩
  · intro es
    suffices hgen : ∀ (l : List (DateTime × CheckoutSession)) (st : Store),
        adCampaignSingular st →
        adCampaignSingular (l.foldl
          (fun st e => (WebhookA.handleAdvertisingPurchase e.1 e.2 st).2) st) by
      exact hgen es emptyStore List.Pairwise.nil
    intro l
    induction l with
    | nil => intro st hst; exact hst
    | cons e l ih =>
      intro st hst
      exact ih _ (handleAdvertisingPurchase_preserves e.1 e.2 st hst)
  · intro now session s bid d rate total ad h1 h2 h3 h4 hAct
    have he : (WebhookA.handleAdvertisingPurchase now session s).2 =
        (extendAd s ad.id d rate total
          (session.metadata.discountPercent.getD 0)
          (session.metadata.hasMembership == some "true")
          (calculateAdDates d (some ad) now).2 session.id
          session.payment_intent now).2 := by
      simp only [WebhookA.handleAdvertisingPurchase, h1, h2, h3, h4, hAct]
      cases hEx : extendAd s ad.id d rate total
        (session.metadata.discountPercent.getD 0)
        (session.metadata.hasMembership == some "true")
        (calculateAdDates d (some ad) now).2 session.id
        session.payment_intent now with
      | mk extended s1 => cases extended <;> simp [hEx]
    rw [he]
    exact extendAd_ads_length s ad.id d rate total _ _ _ session.id
      session.payment_intent now
  · intro now session s bid d rate total h1 h2 h3 h4 hAct
    refine ⟨(createAd s bid d rate total
      (session.metadata.discountPercent.getD 0)
      (session.metadata.hasMembership == some "true")
      (calculateAdDates d none now).1 (calculateAdDates d none now).2
      session.id session.payment_intent).1, ?_, rfl, rfl⟩
    have he : (WebhookA.handleAdvertisingPurchase now session s).2 =
        (createAd s bid d rate total
          (session.metadata.discountPercent.getD 0)
          (session.metadata.hasMembership == some "true")
          (calculateAdDates d none now).1 (calculateAdDates d none now).2
          session.id session.payment_intent).2 := by
      simp only [WebhookA.handleAdvertisingPurchase, h1, h2, h3, h4, hAct]
    rw [he]
    rfl

def adSession (sid : String) (d total : Int) (pi : String) : CheckoutSession :=
  { id := sid, payment_intent := some pi, payment_status := "paid",
    mode := "payment",
    metadata := { productType := some "advertising",
                  businessId := some "biz-1", days := some d,
                  dailyRateCents := some 500,
                  hasMembership := some "false", discountPercent := some 0,
                  totalAmountCents := some total } }

def sampleAdStore : Store := { ads := [sampleAd], nextAdId := 1 }

/-- Witness for C1: a two-purchase sequence keeps the invariant; a
concrete extension adds no row; a concrete first purchase adds one
`active` row. -/
theorem advertising_campaign_singularity_witness :
    adCampaignSingular (processAdEvents
      [(⟨0, 0⟩, adSession "cs_1" 7 3500 "pi_1"),
       (⟨5, 0⟩, adSession "cs_2" 3 1500 "pi_2")]) ∧
    ((WebhookA.handleAdvertisingPurchase ⟨5, 0⟩ (adSession "cs_2" 3 1500 "pi_2")
        sampleAdStore).2).ads.length = sampleAdStore.ads.length ∧
    (∃ newAd : Ad,
      ((WebhookA.handleAdvertisingPurchase ⟨0, 0⟩
          (adSession "cs_1" 7 3500 "pi_1") emptyStore).2).ads =
        newAd :: emptyStore.ads ∧
      newAd.business_id = "biz-1" ∧ newAd.status = "active") :=
  ⟨advertising_campaign_singularity.1
     [(⟨0, 0⟩, adSession "cs_1" 7 3500 "pi_1"),
      (⟨5, 0⟩, adSession "cs_2" 3 1500 "pi_2")],
   advertising_campaign_singularity.2.1 ⟨5, 0⟩ (adSession "cs_2" 3 1500 "pi_2")
     sampleAdStore "biz-1" 3 500 1500 sampleAd rfl rfl rfl rfl (by decide),
   advertising_campaign_singularity.2.2 ⟨0, 0⟩ (adSession "cs_1" 7 3500 "pi_1")
     emptyStore "biz-1" 7 500 3500 rfl rfl rfl rfl rfl⟩

/-! ## C4: extension of an existing campaign is cumulative -/

/-- C4: when a non-terminal campaign exists, the handler extends that same
row: `end_at` becomes the newly resolved end date, `days_purchased` and
`total_amount_cents` grow by this purchase's days and amount on top of the
stored row's values, and the processor session and payment-intent ids are
refreshed; concretely, a 7-day 3500-cent purchase followed by a 3-day
1500-cent purchase before expiry leaves a single row with
`days_purchased = 10`, `total_amount_cents = 5000` and `end_at` equal to
the original end date plus 3 days, carrying the second session's ids. -/
theorem extendAd_cumulative :
    (∀ (now : DateTime) (session : CheckoutSession) (s : Store)
        (bid : String) (d rate total : Int) (ad cur : Ad),
      metaStr session.metadata.businessId = some bid →
      session.metadata.days = some d →
      session.metadata.dailyRateCents = some rate →
      session.metadata.totalAmountCents = some total →
      getActiveAd s bid = some ad →
      s.ads.find? (fun a => a.id == ad.id) = some cur →
      WebhookA.handleAdvertisingPurchase now session s =
        ({ success := true,
           message := "Advertising campaign activated/extended successfully",
           error := none },
         { s with
             ads := s.ads.map (fun a =>
               if a.id == ad.id then
                 { a with
                     end_at := some (calculateAdDates d (some ad) now).2
                     days_purchased := some (cur.days_purchased.getD 0 + d)
                     total_amount_cents :=
                       some (cur.total_amount_cents.getD 0 + total)
                     stripe_session_id := some session.id
                     stripe_payment_intent_id := session.payment_intent
                     updated_at := some now }
               else a) })) ∧
    ((WebhookA.handleAdvertisingPurchase ⟨5, 0⟩ (adSession "cs_2" 3 1500 "pi_2")
        (WebhookA.handleAdvertisingPurchase ⟨0, 0⟩
          (adSession "cs_1" 7 3500 "pi_1") emptyStore).2).2).ads.map
      (fun a => (a.days_purchased, a.total_amount_cents, a.end_at,
        a.stripe_session_id, a.stripe_payment_intent_id)) =
      [(some 10, some 5000, some (DateTime.addDays ⟨7, 0⟩ 3), some "cs_2",
        some "pi_2")] := by
  constructor
  · intro now session s bid d rate total ad cur h1 h2 h3 h4 hAct hCur
    simp only [WebhookA.handleAdvertisingPurchase, h1, h2, h3, h4, hAct,
      extendAd, hCur]
    rfl
  · decide

/-- Witness for C4: extending the sample campaign by 3 days for 1500
cents updates the same row cumulatively. -/
theorem extendAd_cumulative_witness :
    WebhookA.handleAdvertisingPurchase ⟨5, 0⟩ (adSession "cs_2" 3 1500 "pi_2")
        sampleAdStore =
      ({ success := true,
         message := "Advertising campaign activated/extended successfully",
         error := none },
       { sampleAdStore with
           ads := sampleAdStore.ads.map (fun a =>
             if a.id == sampleAd.id then
               { a with
                   end_at := some (calculateAdDates 3 (some sampleAd) ⟨5, 0⟩).2
                   days_purchased := some (sampleAd.days_purchased.getD 0 + 3)
                   total_amount_cents :=
                     some (sampleAd.total_amount_cents.getD 0 + 1500)
                   stripe_session_id := some (adSession "cs_2" 3 1500 "pi_2").id
                   stripe_payment_intent_id :=
                     (adSession "cs_2" 3 1500 "pi_2").payment_intent
                   updated_at := some ⟨5, 0⟩ }
             else a) }) :=
  extendAd_cumulative.1 ⟨5, 0⟩ (adSession "cs_2" 3 1500 "pi_2") sampleAdStore
    "biz-1" 3 500 1500 sampleAd sampleAd rfl rfl rfl rfl (by decide) (by decide)

/-! ## C10: checkout completions without payment are acknowledged only -/

/-- C10: a `checkout.session.completed` event whose `payment_status` is not
`paid` — and, in the dispatcher variant that additionally accepts
subscription-mode sessions, whose mode is also not `subscription` — is
acknowledged with the payment-pending message and reaches no
reconciliation handler: the store is returned unchanged. -/
theorem pending_checkout_acknowledged :
    (∀ (env : StripeEnv) (now : DateTime) (session : CheckoutSession)
        (s : Store),
      session.payment_status ≠ "paid" → session.mode ≠ "subscription" →
      WebhookA.handleWebhookEvent env now
          (.checkoutSessionCompleted session) s =
        ({ success := true,
           message := "Checkout session completed but payment pending",
           error := none }, s)) ∧
    (∀ (legacyAdvertising : CheckoutSession → Store →
          WebhookHandlerResult × Store)
        (now : DateTime) (session : CheckoutSession) (s : Store),
      session.payment_status ≠ "paid" →
      WebhookB.handleWebhookEvent legacyAdvertising now
          (.checkoutSessionCompleted session) s =
        ({ success := true,
           message := "Checkout session completed but payment pending",
           error := none }, s)) := by
  constructor
  · intro env now session s h1 h2
    have b1 : (session.payment_status == "paid") = false := by simpa using h1
    have b2 : (session.mode == "subscription") = false := by simpa using h2
    simp [WebhookA.handleWebhookEvent, b1, b2]
  · intro legacyAdvertising now session s h1
    have b1 : (session.payment_status == "paid") = false := by simpa using h1
    simp [WebhookB.handleWebhookEvent, b1]

def pendingSession : CheckoutSession :=
  { id := "cs_p", payment_status := "unpaid", mode := "payment",
    metadata := { productType := some "membership",
                  membershipOrderId := some "order-2",
                  profileId := some "user-1",
                  membershipPlanId := some "plan-1" } }

def legacyAdStub : CheckoutSession → Store → WebhookHandlerResult × Store :=
  fun _ st => ({ success := true, message := "legacy advertising" }, st)

/-- Witness for C10 on a concrete unpaid session under both dispatcher
variants. -/
theorem pending_checkout_acknowledged_witness :
    (WebhookA.handleWebhookEvent sampleStripeEnv ⟨0, 0⟩
        (.checkoutSessionCompleted pendingSession) samplePendingStore =
      ({ success := true,
         message := "Checkout session completed but payment pending",
         error := none }, samplePendingStore)) ∧
    (WebhookB.handleWebhookEvent legacyAdStub ⟨0, 0⟩
        (.checkoutSessionCompleted pendingSession) samplePendingStore =
      ({ success := true,
         message := "Checkout session completed but payment pending",
         error := none }, samplePendingStore)) :=
  ⟨pending_checkout_acknowledged.1 sampleStripeEnv ⟨0, 0⟩ pendingSession
     samplePendingStore (by decide) (by decide),
   pending_checkout_acknowledged.2 legacyAdStub ⟨0, 0⟩ pendingSession
     samplePendingStore (by decide)⟩

/-! ## C8: webhook signature verification

The claimed property — rejection with a client error and no handler
invocation for every missing or unverifiable signature, in all
configurations — fails on the code: when no webhook secret is configured,
`constructWebhookEvent` skips verification and parses the payload
directly, so an event whose signature could never verify is still
dispatched and mutates state.  The property does hold whenever a webhook
secret is configured. -/

def insecureVerifierEnv : VerifierEnv :=
  { stripeConfigured := true
    webhookSecret := none
    verifyEvent := fun _ _ _ => .error "signature verification failed"
    parseEvent := fun _ =>
      .ok (.checkoutSessionCompleted samplePendingOrderSession) }

/-- Counterexample for C8: with no webhook secret configured, a request
whose signature fails verification against every secret is still
processed: the route answers 200 and the store is mutated, so the event
did reach a reconciliation handler. -/
theorem webhook_fails_open_counterexample :
    (webhookPOST insecureVerifierEnv
        (WebhookB.handleWebhookEvent legacyAdStub ⟨50, 0⟩)
        { body := "payload", signature := some "garbage" }
        samplePendingStore).1.status = 200 ∧
    (webhookPOST insecureVerifierEnv
        (WebhookB.handleWebhookEvent legacyAdStub ⟨50, 0⟩)
        { body := "payload", signature := some "garbage" }
        samplePendingStore).2 ≠ samplePendingStore ∧
    (∀ (payload sig secret : String) (e : StripeEvent),
      insecureVerifierEnv.verifyEvent payload sig secret ≠ .ok e) := by
  refine ⟨by decide, by decide, ?_⟩
  intro payload sig secret e
  simp [insecureVerifierEnv]

/-- C8 amended: a POST with a missing `stripe-signature` header is always
answered with HTTP 400 and dispatched to no handler; and whenever a
webhook secret is configured, a POST whose signature fails verification
against that secret is likewise answered with 400 and dispatched to no
handler, the store unchanged in both cases.  (Without a configured secret
the source deliberately skips verification, see the counterexample.) -/
theorem webhook_fails_closed_with_secret :
    (∀ (env : VerifierEnv)
        (dispatch : StripeEvent → Store → WebhookHandlerResult × Store)
        (request : WebhookRequest) (s : Store),
      request.signature = none →
      (webhookPOST env dispatch request s).1.status = 400 ∧
      (webhookPOST env dispatch request s).2 = s) ∧
    (∀ (env : VerifierEnv)
        (dispatch : StripeEvent → Store → WebhookHandlerResult × Store)
        (request : WebhookRequest) (s : Store) (secret sig msg : String),
      env.webhookSecret = some secret →
      request.signature = some sig →
      env.verifyEvent request.body sig secret = .error msg →
      (webhookPOST env dispatch request s).1.status = 400 ∧
      (webhookPOST env dispatch request s).2 = s) := by
  constructor
  · intro env dispatch request s h
    simp [webhookPOST, h]
  · intro env dispatch request s secret sig msg hsec hsig hver
    cases hCfg : env.stripeConfigured with
    | false => simp [webhookPOST, hsig, constructWebhookEvent, hCfg]
    | true => simp [webhookPOST, hsig, constructWebhookEvent, hCfg, hsec, hver]

def secureVerifierEnv : VerifierEnv :=
  { stripeConfigured := true
    webhookSecret := some "whsec_1"
    verifyEvent := fun _ _ _ => .error "signature verification failed"
    parseEvent := fun _ =>
      .ok (.checkoutSessionCompleted samplePendingOrderSession) }

/-- Witness for the amended C8: with a configured secret, a tampered
signature gets 400 and no mutation. -/
theorem webhook_fails_closed_with_secret_witness :
    (webhookPOST secureVerifierEnv
        (WebhookB.handleWebhookEvent legacyAdStub ⟨50, 0⟩)
        { body := "payload", signature := some "garbage" }
        samplePendingStore).1.status = 400 ∧
    (webhookPOST secureVerifierEnv
        (WebhookB.handleWebhookEvent legacyAdStub ⟨50, 0⟩)
        { body := "payload", signature := some "garbage" }
        samplePendingStore).2 = samplePendingStore ∧
    (webhookPOST secureVerifierEnv
        (WebhookB.handleWebhookEvent legacyAdStub ⟨50, 0⟩)
        { body := "payload", signature := none }
        samplePendingStore).1.status = 400 :=
  ⟨(webhook_fails_closed_with_secret.2 secureVerifierEnv
      (WebhookB.handleWebhookEvent legacyAdStub ⟨50, 0⟩)
      { body := "payload", signature := some "garbage" }
      samplePendingStore "whsec_1" "garbage" "signature verification failed"
      rfl rfl rfl).1,
   (webhook_fails_closed_with_secret.2 secureVerifierEnv
      (WebhookB.handleWebhookEvent legacyAdStub ⟨50, 0⟩)
      { body := "payload", signature := some "garbage" }
      samplePendingStore "whsec_1" "garbage" "signature verification failed"
      rfl rfl rfl).2,
   (webhook_fails_closed_with_secret.1 secureVerifierEnv
      (WebhookB.handleWebhookEvent legacyAdStub ⟨50, 0⟩)
      { body := "payload", signature := none }
      samplePendingStore rfl).1⟩
